import Mathlib

/-!
Shallow embedding of src/ifd/ifd-ikey2k.c (openct driver for the Rainbow
iKey 2032 token) and proofs about it.

Conventions of the embedding:
* C byte buffers become List Nat (each element an unsigned char value).
* C int results become Int; size_t lengths become Nat.
* The USB transport is not in this file's source, so each codec-level
  function is embedded as the control transfer it issues (a Transfer
  record); device responses are supplied by explicit oracle parameters.
* A C function that can fall off its end without a return statement (the
  descriptor parser does) yields none : Option Int on that path, since the
  value it returns there is unspecified.
-/

/-- Relevant members of enum ikey2k_command. -/
def IKEY2K_CMD_RESET : Nat := 0

/-- Device command 1: fetch the pending response. -/
def IKEY2K_CMD_GET_RESPONSE : Nat := 1

/-- Device command 22: card control (sub-command envelope). -/
def IKEY2K_CMD_CARD_CTL : Nat := 22

/-- Device command 23: raw card I/O (source name IKEY2K_CMD_CARD_IO). -/
def ikey2kCmdCardIo : Nat := 23

/-- One USB control transfer as issued by ifd_usb_control: request type
byte, request, value, index, data length, outgoing payload (empty for
device-to-host transfers) and timeout in ms. -/
structure Transfer where
  reqType : Nat
  request : Nat
  value : Nat
  idx : Nat
  dataLen : Nat
  payload : List Nat
  timeout : Nat
deriving DecidableEq

/-- Embeds the header extraction of ikey2k_do_send: up to four leading
bytes are consumed, the first two into value, the next two into index
(low byte first, by successive uint16_t or-assignments); the remaining
bytes are the payload. Data bytes are unsigned char in C (< 256); the
uint16_t truncation is modelled by the trailing mod 65536. -/
def ikey2k_do_send_params (data : List Nat) : Nat × Nat × List Nat :=
  match data with
  | [] => (0, 0, [])
  | [b0] => (b0 % 65536, 0, [])
  | [b0, b1] => ((b0 ||| (b1 <<< 8)) % 65536, 0, [])
  | [b0, b1, b2] => ((b0 ||| (b1 <<< 8)) % 65536, b2 % 65536, [])
  | b0 :: b1 :: b2 :: b3 :: rest =>
      ((b0 ||| (b1 <<< 8)) % 65536, (b2 ||| (b3 <<< 8)) % 65536, rest)

/-- Embeds ikey2k_do_send: the control transfer it issues, with request
type 0x41 (host to device), request = cmd and a 1000 ms timeout. -/
def ikey2k_do_send (cmd : Nat) (data : List Nat) : Transfer :=
  ⟨0x41, cmd, (ikey2k_do_send_params data).1, (ikey2k_do_send_params data).2.1,
   (ikey2k_do_send_params data).2.2.length, (ikey2k_do_send_params data).2.2, 1000⟩

/-- Embeds ikey2k_do_recv: the control transfer it issues, with request
type 0xC1 (device to host), request = cmd, value = 0, index = 0. -/
def ikey2k_do_recv (cmd : Nat) (len : Nat) : Transfer :=
  ⟨0xC1, cmd, 0, 0, len, [], 1000⟩

/-- Embeds ikey2k_do_cmd. The transport's results are supplied by the
oracle arguments sendRc (result of the send) and recvRc (result of the
recv, consulted only if the recv happens); outPtr models outdata being a
non-null pointer. Returns the C function's result together with the list
of transfers issued. -/
def ikey2k_do_cmd (sendRc recvRc : Int) (cmd : Nat) (indata : List Nat)
    (outPtr : Bool) (outlen : Nat) : Int × List Transfer :=
  if 0 ≤ sendRc ∧ outPtr = true ∧ outlen ≠ 0 then
    (recvRc, [ikey2k_do_send cmd indata, ikey2k_do_recv IKEY2K_CMD_GET_RESPONSE outlen])
  else
    (sendRc, [ikey2k_do_send cmd indata])

/-- The length argument ikey2k_do_card_cmd passes to ikey2k_do_send for
its stack frame buf: always inlen + 2, regardless of the memcpy bound. -/
def ikey2k_do_card_cmd_sendlen (inlen : Nat) : Nat := inlen + 2

/-- The bytes ikey2k_do_card_cmd hands to ikey2k_do_send: buf[0] = cmd,
buf[1] = arg1 (both stored into unsigned char, hence mod 256), then
memcpy of min(254, inlen) input bytes, read back with declared length
inlen + 2. For inlen ≤ 254 these are exactly the initialized bytes; for
inlen > 254 the declared length inlen + 2 exceeds the 256-byte buffer,
so the read runs past buf into unspecified memory: modelled as none. -/
def ikey2k_do_card_cmd_frame (cmd arg : Nat) (input : List Nat) : Option (List Nat) :=
  if input.length + 2 ≤ 256 then
    some (cmd % 256 :: arg % 256 :: input.take 254)
  else
    none

/-- Embeds ikey2k_do_card_send: a raw send with the card I/O command. -/
def ikey2k_do_card_send (data : List Nat) : Transfer :=
  ikey2k_do_send ikey2kCmdCardIo data

/-- Embeds ikey2k_do_card_recv: a raw recv with GET_RESPONSE. -/
def ikey2k_do_card_recv (len : Nat) : Transfer :=
  ikey2k_do_recv IKEY2K_CMD_GET_RESPONSE len

/-- Embeds ikey2k_parse_desc. Reject branches return some of the C error
code; the accepting path falls off the end of the non-void C function
(there is no return statement there), so its returned int is unspecified:
modelled as none. desc holds the received bytes, desclen the separately
passed length argument. -/
def ikey2k_parse_desc (desc : List Nat) (desclen : Int) : Option Int :=
  if desclen < 6 ∨ desclen > 0x40 ∨ (desc.getD 0 0 : Int) ≠ desclen then some (-1)
  else if desc.getD 1 0 < 0x60 ∨ desc.getD 1 0 > 0x6F then some (-2)
  else if desclen > 0xC ∧ desc.getD 0xC 0 ≠ 9 ∧ desc.getD 0xC 0 ≠ 25 then some (-3)
  else none

/-- Embeds ikey2k_activate given the recv's result desclen and the bytes
received into its buffer. First component: the C return value (none when
it depends on the unspecified value ikey2k_parse_desc returns on its
accepting path). Second component: whether ikey2k_parse_desc was invoked
(the || short-circuits when desclen ≤ 0). The C condition is
desclen <= 0 || !ikey2k_parse_desc(...), so a parse result of 0 fails
activation and any nonzero parse result lets it succeed. -/
def ikey2k_activate (desclen : Int) (buffer : List Nat) : Option Int × Bool :=
  if desclen ≤ 0 then (some (-1), false)
  else
    match ikey2k_parse_desc buffer desclen with
    | some rc => (if rc = 0 then some (-1) else some 0, true)
    | none => (none, true)

/-- The transfers ikey2k_activate issues: one bare recv with request
IKEY2K_CMD_RESET into its 256-byte buffer. -/
def ikey2k_activate_transfers : List Transfer :=
  [ikey2k_do_recv IKEY2K_CMD_RESET 256]

/-- Modelled from the spec (section 4.5, Opened to Activated): activate is
described as Device Command Layer execute(RESET, empty, ≤ 256), i.e. a
send with request RESET followed on success by a recv with request
GET_RESPONSE. sendOk tells whether the send succeeded. This definition
exists only to be compared with ikey2k_activate_transfers. -/
def activateSpecTransfers (sendOk : Bool) : List Transfer :=
  if sendOk then
    [ikey2k_do_send IKEY2K_CMD_RESET [], ikey2k_do_recv IKEY2K_CMD_GET_RESPONSE 256]
  else
    [ikey2k_do_send IKEY2K_CMD_RESET []]

/-- Embeds ikey2k_send: dad is accepted but unused. -/
def ikey2k_send (dad : Nat) (buffer : List Nat) : Transfer :=
  ikey2k_do_card_send buffer

/-- Embeds ikey2k_recv: dad and timeout are accepted but unused. -/
def ikey2k_recv (dad : Nat) (len : Nat) (timeout : Int) : Transfer :=
  ikey2k_do_card_recv len

/-- The fields of ifd_reader_t that ikey2k_open touches. -/
structure ReaderState where
  name : Option String
  nslots : Nat
  device : Option Unit
deriving DecidableEq

/-- Environment for ikey2k_open: whether ifd_device_open returns a
handle, whether its type is USB, and the ifd_device_set_parameters
result. -/
structure OpenEnv where
  devAvailable : Bool
  devIsUsb : Bool
  setParamsRc : Int
deriving DecidableEq

/-- Embeds ikey2k_open. Returns the updated reader state, the C return
value, and whether ifd_device_close was called on the acquired handle. -/
def ikey2k_open (env : OpenEnv) (r : ReaderState) : ReaderState × Int × Bool :=
  let r1 : ReaderState := ⟨some "Rainbow Technologies iKey 2032", 1, r.device⟩
  if env.devAvailable = false then (r1, -1, false)
  else if env.devIsUsb = false then (r1, -1, true)
  else if env.setParamsRc < 0 then (r1, -1, true)
  else (⟨r1.name, r1.nslots, some ()⟩, 0, false)

/-- One invocation of ikey2k_do_card_cmd as seen from ikey2k_card_reset:
sub-command byte, argument byte, input length and output capacity. -/
structure CardCall where
  subcmd : Nat
  arg : Nat
  inlen : Nat
  outlen : Nat
deriving DecidableEq

/-- Oracle for ikey2k_card_reset: results of the three card commands it
can issue. resetByte0 is buffer[0] after the reset command (read only
when the reset command returned 1). -/
structure ResetDev where
  resetRc : Int
  resetByte0 : Nat
  atr25Rc : Int
  atr9Rc : Int
deriving DecidableEq

/-- The card-reset sub-command call of ikey2k_card_reset. -/
def cardResetCall : CardCall := ⟨0x00, 0, 0, 2⟩

/-- A get-ATR sub-command call of ikey2k_card_reset. -/
def cardAtrCall (arg outlen : Nat) : CardCall := ⟨0x01, arg, 0, outlen⟩

/-- Embeds ikey2k_card_reset. Returns the C result (ATR length or -1)
and the list of card sub-command calls issued. size is the caller's ATR
buffer capacity. -/
def ikey2k_card_reset (d : ResetDev) (size : Nat) : Int × List CardCall :=
  if ¬ (d.resetRc = 1 ∧ d.resetByte0 = 0) then (-1, [cardResetCall])
  else
    let atrlen := if d.atr25Rc ≠ 25 then d.atr9Rc else d.atr25Rc
    let calls := if d.atr25Rc ≠ 25 then
        [cardResetCall, cardAtrCall 25 25, cardAtrCall 9 9]
      else
        [cardResetCall, cardAtrCall 25 25]
    if atrlen < 9 ∨ atrlen > (size : Int) then (-1, calls)
    else (atrlen, calls)

/-- The spec's example descriptor 0d 63 00 06 2d 2d c0 80 80 60 80 01 19:
13 bytes, length byte 0x0d, tag 0x63, trailing ATR-length hint 0x19. -/
def specExampleDesc : List Nat :=
  [0x0d, 0x63, 0x00, 0x06, 0x2d, 0x2d, 0xc0, 0x80, 0x80, 0x60, 0x80, 0x01, 0x19]

/-- For a low byte below 256, or-ing in a value shifted left by 8 is the
same as adding 256 times that value. -/
theorem lor_shiftLeft_eight (a b : Nat) (ha : a < 256) :
    a ||| (b <<< 8) = a + 256 * b := by
  have h : 2 ^ 8 * b + a = 2 ^ 8 * b ||| a := Nat.mul_add_lt_is_or (by omega) b
  rw [Nat.shiftLeft_eq, Nat.or_comm, Nat.mul_comm b (2 ^ 8), ← h]
  omega

/-- The accepting path of ikey2k_parse_desc (reaching the end of the
function without hitting a reject branch) is taken exactly when the
descriptor satisfies the claimed structural conditions. -/
theorem ikey2k_parse_desc_none_iff (desc : List Nat) (desclen : Int)
    (h : desclen = (desc.length : Int)) :
    ikey2k_parse_desc desc desclen = none ↔
      (6 ≤ desc.length ∧ desc.length ≤ 0x40 ∧ desc.getD 0 0 = desc.length ∧
       0x60 ≤ desc.getD 1 0 ∧ desc.getD 1 0 ≤ 0x6F ∧
       (desc.length ≤ 0xC ∨ desc.getD 0xC 0 = 9 ∨ desc.getD 0xC 0 = 25)) := by
  subst h
  unfold ikey2k_parse_desc
  split_ifs with h1 h2 h3 <;>
    simp only [reduceCtorEq, false_iff, true_iff] <;> omega

/-- Claim C1 (code bug witness): on a 6-byte descriptor whose byte 0 is
not 6, the validator rejects (returns -1), yet ikey2k_activate returns 0
(success): the condition desclen <= 0 || !ikey2k_parse_desc(...) treats
the nonzero reject codes as acceptance, so activation succeeds on every
rejected descriptor. -/
theorem c1_activate_succeeds_on_rejected_desc :
    ikey2k_parse_desc [0, 0, 0, 0, 0, 0] 6 = some (-1) ∧
    (ikey2k_activate 6 [0, 0, 0, 0, 0, 0]).1 = some 0 := by
  decide

/-- Claim C2 (code bug witness): for a 255-byte input, ikey2k_do_card_cmd
passes length 257 to ikey2k_do_send while the claim requires
2 + min 254 255 = 256; the declared length exceeds the 256-byte frame
buffer, so the bytes handed to the send are not defined (none). For an
in-range input the frame is exactly sub-command, argument, input. -/
theorem c2_card_cmd_length_not_truncated :
    ikey2k_do_card_cmd_sendlen 255 = 257 ∧
    2 + min 254 255 = 256 ∧
    ikey2k_do_card_cmd_frame 3 0 (List.replicate 255 0) = none ∧
    ikey2k_do_card_cmd_frame 3 7 [15] = some [3, 7, 15] ∧
    ikey2k_do_card_cmd_sendlen 1 = 3 := by
  refine ⟨rfl, rfl, ?_, by decide, rfl⟩
  unfold ikey2k_do_card_cmd_frame
  rw [if_neg (by rw [List.length_replicate]; omega)]

/-- Claim C3 (code bug witness): the spec's example descriptor passes
every reject branch of ikey2k_parse_desc, i.e. it satisfies all the
claimed acceptance conditions, but the C function then reaches its end
with no return statement (modelled none), so it never produces a defined
accept verdict. -/
theorem c3_parse_desc_accept_has_no_return :
    (6 ≤ specExampleDesc.length ∧ specExampleDesc.length ≤ 0x40 ∧
     specExampleDesc.getD 0 0 = specExampleDesc.length ∧
     0x60 ≤ specExampleDesc.getD 1 0 ∧ specExampleDesc.getD 1 0 ≤ 0x6F ∧
     (specExampleDesc.length ≤ 0xC ∨ specExampleDesc.getD 0xC 0 = 9 ∨
      specExampleDesc.getD 0xC 0 = 25)) ∧
    ikey2k_parse_desc specExampleDesc 13 = none := by
  decide

/-- Claim C7 counterexample: the transfer sequence ikey2k_activate issues
is not the send-then-GET_RESPONSE sequence of the spec's
execute(RESET, empty, 256) description. -/
theorem c7_activate_transfers_ne_spec :
    ikey2k_activate_transfers ≠ activateSpecTransfers true := by
  decide

/-- Claim C7 amended: activate issues exactly one transfer, a
device-to-host (request type 0xC1) control transfer with request RESET,
value 0, index 0, capacity 256 — no prior send and no GET_RESPONSE — and
whenever that recv returns a positive length, the descriptor validator is
run on the returned buffer. -/
theorem c7_activate_single_reset_recv (desclen : Int) (buffer : List Nat)
    (h : 0 < desclen) :
    ikey2k_activate_transfers = [⟨0xC1, IKEY2K_CMD_RESET, 0, 0, 256, [], 1000⟩] ∧
    (ikey2k_activate desclen buffer).2 = true := by
  refine ⟨rfl, ?_⟩
  unfold ikey2k_activate
  rw [if_neg (by omega)]
  cases ikey2k_parse_desc buffer desclen <;> simp

/-- Witness for c7_activate_single_reset_recv at desclen 13, the spec's
example descriptor. -/
theorem c7_activate_single_reset_recv_witness :
    ikey2k_activate_transfers = [⟨0xC1, IKEY2K_CMD_RESET, 0, 0, 256, [], 1000⟩] ∧
    (ikey2k_activate 13 specExampleDesc).2 = true :=
  c7_activate_single_reset_recv 13 specExampleDesc (by decide)

/-- Claim C8: when the initial card-reset sub-command does not return
exactly 1 with response byte 0 equal to 0, ikey2k_card_reset returns the
failure result -1 and the only sub-command call issued is the reset: no
get-ATR call (sub-command 0x01) is ever issued. -/
theorem c8_reset_failure_no_atr_call (d : ResetDev) (size : Nat)
    (h : ¬ (d.resetRc = 1 ∧ d.resetByte0 = 0)) :
    (ikey2k_card_reset d size).1 = -1 ∧
    (ikey2k_card_reset d size).2 = [cardResetCall] ∧
    ∀ c ∈ (ikey2k_card_reset d size).2, c.subcmd ≠ 0x01 := by
  unfold ikey2k_card_reset
  rw [if_pos h]
  refine ⟨rfl, rfl, ?_⟩
  intro c hc
  simp only [List.mem_singleton] at hc
  subst hc
  decide

/-- Witness for c8_reset_failure_no_atr_call: the reset call returned 0
bytes (result 0). -/
theorem c8_reset_failure_no_atr_call_witness :
    (ikey2k_card_reset ⟨0, 0, 25, 25⟩ 25).1 = -1 ∧
    (ikey2k_card_reset ⟨0, 0, 25, 25⟩ 25).2 = [cardResetCall] ∧
    ∀ c ∈ (ikey2k_card_reset ⟨0, 0, 25, 25⟩ 25).2, c.subcmd ≠ 0x01 :=
  c8_reset_failure_no_atr_call ⟨0, 0, 25, 25⟩ 25 (by decide)

/-- Claim C9: ikey2k_send ignores dad and ikey2k_recv ignores timeout:
runs differing only in those arguments issue identical transfers and,
for any transport behaviour (oracle mapping a transfer to its result),
return identical results. -/
theorem c9_send_recv_ignore_dad_timeout (oracle : Transfer → Int)
    (dad dad2 len : Nat) (buffer : List Nat) (t1 t2 : Int) :
    ikey2k_send dad buffer = ikey2k_send dad2 buffer ∧
    oracle (ikey2k_send dad buffer) = oracle (ikey2k_send dad2 buffer) ∧
    ikey2k_recv dad len t1 = ikey2k_recv dad len t2 ∧
    oracle (ikey2k_recv dad len t1) = oracle (ikey2k_recv dad len t2) :=
  ⟨rfl, rfl, rfl, rfl⟩

/-- Claim C4: ikey2k_card_reset requires the card-reset sub-command to
return 1 with response byte 0 zero (failing with -1 and no further call
otherwise); it then requests the ATR with arg 25 and capacity 25; a
result of exactly 25 is kept with no fallback call, any other result
triggers exactly one fallback call with arg 9 and capacity 9; the final
ATR length is accepted (nonnegative result, equal to that length) if and
only if it lies within [9, size]. -/
theorem c4_card_reset_atr (d : ResetDev) (size : Nat) :
    (¬ (d.resetRc = 1 ∧ d.resetByte0 = 0) →
      ikey2k_card_reset d size = (-1, [cardResetCall])) ∧
    (d.resetRc = 1 → d.resetByte0 = 0 → d.atr25Rc = 25 →
      (ikey2k_card_reset d size).2 = [cardResetCall, cardAtrCall 25 25] ∧
      (ikey2k_card_reset d size).1 = if (25 : Int) ≤ (size : Int) then 25 else -1) ∧
    (d.resetRc = 1 → d.resetByte0 = 0 → d.atr25Rc ≠ 25 →
      (ikey2k_card_reset d size).2 =
        [cardResetCall, cardAtrCall 25 25, cardAtrCall 9 9]) ∧
    (d.resetRc = 1 → d.resetByte0 = 0 →
      (0 ≤ (ikey2k_card_reset d size).1 ↔
        (9 ≤ (if d.atr25Rc ≠ 25 then d.atr9Rc else d.atr25Rc) ∧
         (if d.atr25Rc ≠ 25 then d.atr9Rc else d.atr25Rc) ≤ (size : Int))) ∧
      (9 ≤ (if d.atr25Rc ≠ 25 then d.atr9Rc else d.atr25Rc) →
       (if d.atr25Rc ≠ 25 then d.atr9Rc else d.atr25Rc) ≤ (size : Int) →
       (ikey2k_card_reset d size).1 =
         (if d.atr25Rc ≠ 25 then d.atr9Rc else d.atr25Rc))) := by
  refine ⟨?_, ?_, ?_, ?_⟩
  · intro h
    simp only [ikey2k_card_reset]
    rw [if_pos h]
  · intro h1 h2 h3
    simp only [ikey2k_card_reset]
    rw [if_neg (not_not_intro ⟨h1, h2⟩), if_neg (not_not_intro h3),
      if_neg (not_not_intro h3)]
    rw [h3]
    constructor
    · split_ifs <;> rfl
    · split_ifs <;> first | rfl | omega | (exfalso; omega)
  · intro h1 h2 h3
    simp only [ikey2k_card_reset]
    rw [if_neg (not_not_intro ⟨h1, h2⟩), if_pos h3, if_pos h3]
    split_ifs <;> rfl
  · intro h1 h2
    simp only [ikey2k_card_reset]
    rw [if_neg (not_not_intro ⟨h1, h2⟩)]
    by_cases h25 : d.atr25Rc = 25
    · rw [if_neg (not_not_intro h25), if_neg (not_not_intro h25)]
      constructor
      · split_ifs <;> simp_all <;> omega
      · intro g1 g2
        split_ifs <;> first | rfl | omega | (exfalso; omega)
    · rw [if_pos h25, if_pos h25]
      constructor
      · split_ifs <;> simp_all <;> omega
      · intro g1 g2
        split_ifs <;> first | rfl | omega | (exfalso; omega)

/-- Witness for c4_card_reset_atr: reset succeeds (result 1, byte 0),
the 25-byte ATR request returns 25, caller capacity 25. -/
theorem c4_card_reset_atr_witness :
    (ikey2k_card_reset ⟨1, 0, 25, 0⟩ 25).2 = [cardResetCall, cardAtrCall 25 25] ∧
    (ikey2k_card_reset ⟨1, 0, 25, 0⟩ 25).1 =
      if (25 : Int) ≤ ((25 : Nat) : Int) then 25 else -1 :=
  (c4_card_reset_atr ⟨1, 0, 25, 0⟩ 25).2.1 rfl rfl rfl

/-- Claim C5: ikey2k_do_send consumes at most the first 4 input bytes
into the 16-bit value and index fields (low byte then high byte, value
before index, missing bytes leaving the zero-initialised fields), and
transmits as payload exactly the bytes after the first 4, that is
max(0, len - 4) bytes. -/
theorem c5_do_send_header_payload (cmd : Nat) (data : List Nat)
    (hbytes : ∀ b ∈ data, b < 256) :
    (ikey2k_do_send cmd data).payload = data.drop 4 ∧
    (ikey2k_do_send cmd data).dataLen = data.length - 4 ∧
    (ikey2k_do_send cmd data).value = data.getD 0 0 + 256 * data.getD 1 0 ∧
    (ikey2k_do_send cmd data).idx = data.getD 2 0 + 256 * data.getD 3 0 := by
  rcases data with _ | ⟨b0, _ | ⟨b1, _ | ⟨b2, _ | ⟨b3, rest⟩⟩⟩⟩
  · simp [ikey2k_do_send, ikey2k_do_send_params]
  · have h0 : b0 < 256 := hbytes b0 (by simp)
    simp [ikey2k_do_send, ikey2k_do_send_params,
      Nat.mod_eq_of_lt (show b0 < 65536 by omega)]
  · have h0 : b0 < 256 := hbytes b0 (by simp)
    have h1 : b1 < 256 := hbytes b1 (by simp)
    simp [ikey2k_do_send, ikey2k_do_send_params, lor_shiftLeft_eight b0 b1 h0,
      Nat.mod_eq_of_lt (show b0 + 256 * b1 < 65536 by omega)]
  · have h0 : b0 < 256 := hbytes b0 (by simp)
    have h1 : b1 < 256 := hbytes b1 (by simp)
    have h2 : b2 < 256 := hbytes b2 (by simp)
    simp [ikey2k_do_send, ikey2k_do_send_params, lor_shiftLeft_eight b0 b1 h0,
      Nat.mod_eq_of_lt (show b0 + 256 * b1 < 65536 by omega),
      Nat.mod_eq_of_lt (show b2 < 65536 by omega)]
  · have h0 : b0 < 256 := hbytes b0 (by simp)
    have h1 : b1 < 256 := hbytes b1 (by simp)
    have h2 : b2 < 256 := hbytes b2 (by simp)
    have h3 : b3 < 256 := hbytes b3 (by simp)
    simp [ikey2k_do_send, ikey2k_do_send_params, lor_shiftLeft_eight b0 b1 h0,
      lor_shiftLeft_eight b2 b3 h2,
      Nat.mod_eq_of_lt (show b0 + 256 * b1 < 65536 by omega),
      Nat.mod_eq_of_lt (show b2 + 256 * b3 < 65536 by omega)]

/-- Witness for c5_do_send_header_payload on a 5-byte input. -/
theorem c5_do_send_header_payload_witness :
    (ikey2k_do_send 22 [1, 2, 3, 4, 5]).payload = [1, 2, 3, 4, 5].drop 4 ∧
    (ikey2k_do_send 22 [1, 2, 3, 4, 5]).dataLen = [1, 2, 3, 4, 5].length - 4 ∧
    (ikey2k_do_send 22 [1, 2, 3, 4, 5]).value =
      [1, 2, 3, 4, 5].getD 0 0 + 256 * [1, 2, 3, 4, 5].getD 1 0 ∧
    (ikey2k_do_send 22 [1, 2, 3, 4, 5]).idx =
      [1, 2, 3, 4, 5].getD 2 0 + 256 * [1, 2, 3, 4, 5].getD 3 0 :=
  c5_do_send_header_payload 22 [1, 2, 3, 4, 5] (by decide)

/-- Claim C6: ikey2k_do_cmd performs the send first; a negative send
result is returned unchanged with no recv; on a successful send with
output requested, the response is fetched by one recv whose request is
the fixed GET_RESPONSE (value 1), never the original cmd, and the recv
result is returned; with no output requested the send result is
returned. -/
theorem c6_do_cmd_send_then_fetch (sendRc recvRc : Int) (cmd : Nat)
    (indata : List Nat) (outPtr : Bool) (outlen : Nat) :
    (sendRc < 0 →
      ikey2k_do_cmd sendRc recvRc cmd indata outPtr outlen =
        (sendRc, [ikey2k_do_send cmd indata])) ∧
    (0 ≤ sendRc → outPtr = true → outlen ≠ 0 →
      ikey2k_do_cmd sendRc recvRc cmd indata outPtr outlen =
        (recvRc, [ikey2k_do_send cmd indata,
          ikey2k_do_recv IKEY2K_CMD_GET_RESPONSE outlen]) ∧
      (ikey2k_do_recv IKEY2K_CMD_GET_RESPONSE outlen).request = 1) ∧
    (0 ≤ sendRc → ¬ (outPtr = true ∧ outlen ≠ 0) →
      ikey2k_do_cmd sendRc recvRc cmd indata outPtr outlen =
        (sendRc, [ikey2k_do_send cmd indata])) := by
  unfold ikey2k_do_cmd
  refine ⟨fun h => ?_, fun h1 h2 h3 => ?_, fun h1 h2 => ?_⟩
  · rw [if_neg (fun hc => absurd hc.1 (by omega))]
  · rw [if_pos ⟨h1, h2, h3⟩]
    exact ⟨rfl, rfl⟩
  · rw [if_neg (fun hc => h2 ⟨hc.2.1, hc.2.2⟩)]

/-- Witness for c6_do_cmd_send_then_fetch: successful send (result 3)
with 4 bytes of output requested; the recv result 7 is returned. -/
theorem c6_do_cmd_send_then_fetch_witness :
    ikey2k_do_cmd 3 7 5 [9] true 4 =
      (7, [ikey2k_do_send 5 [9], ikey2k_do_recv IKEY2K_CMD_GET_RESPONSE 4]) ∧
    (ikey2k_do_recv IKEY2K_CMD_GET_RESPONSE 4).request = 1 :=
  (c6_do_cmd_send_then_fetch 3 7 5 [9] true 4).2.1 (by decide) rfl (by decide)

/-- Claim C10: ikey2k_open writes the reader name and slot count 1
before acquiring the device, so they are set on every path, including
the failing ones; no other modelled field changes on a failed open (the
device field keeps its prior value); the failures after a handle was
acquired (non-USB device, set-parameters error) return -1; and the
acquired handle is closed exactly on the failure paths reached after
acquisition. -/
theorem c10_open_effects (env : OpenEnv) (r : ReaderState) :
    ((ikey2k_open env r).1.name = some "Rainbow Technologies iKey 2032" ∧
     (ikey2k_open env r).1.nslots = 1) ∧
    ((ikey2k_open env r).2.1 < 0 → (ikey2k_open env r).1.device = r.device) ∧
    (env.devAvailable = true → env.devIsUsb = false →
      (ikey2k_open env r).2.1 = -1) ∧
    (env.devAvailable = true → env.devIsUsb = true → env.setParamsRc < 0 →
      (ikey2k_open env r).2.1 = -1) ∧
    ((ikey2k_open env r).2.2 = true ↔
      (env.devAvailable = true ∧ (ikey2k_open env r).2.1 < 0)) := by
  unfold ikey2k_open
  split_ifs with h1 h2 h3 <;> simp_all <;> omega

/-- Witness for c10_open_effects: a USB handle is acquired but
set-parameters fails; name and nslots are set, the handle is closed. -/
theorem c10_open_effects_witness :
    ((ikey2k_open ⟨true, true, -1⟩ ⟨none, 0, none⟩).1.name =
       some "Rainbow Technologies iKey 2032" ∧
     (ikey2k_open ⟨true, true, -1⟩ ⟨none, 0, none⟩).1.nslots = 1) ∧
    ((ikey2k_open ⟨true, true, -1⟩ ⟨none, 0, none⟩).2.1 < 0 →
      (ikey2k_open ⟨true, true, -1⟩ ⟨none, 0, none⟩).1.device =
        (⟨none, 0, none⟩ : ReaderState).device) ∧
    ((⟨true, true, -1⟩ : OpenEnv).devAvailable = true →
      (⟨true, true, -1⟩ : OpenEnv).devIsUsb = false →
      (ikey2k_open ⟨true, true, -1⟩ ⟨none, 0, none⟩).2.1 = -1) ∧
    ((⟨true, true, -1⟩ : OpenEnv).devAvailable = true →
      (⟨true, true, -1⟩ : OpenEnv).devIsUsb = true →
      (⟨true, true, -1⟩ : OpenEnv).setParamsRc < 0 →
      (ikey2k_open ⟨true, true, -1⟩ ⟨none, 0, none⟩).2.1 = -1) ∧
    ((ikey2k_open ⟨true, true, -1⟩ ⟨none, 0, none⟩).2.2 = true ↔
      ((⟨true, true, -1⟩ : OpenEnv).devAvailable = true ∧
       (ikey2k_open ⟨true, true, -1⟩ ⟨none, 0, none⟩).2.1 < 0)) :=
  c10_open_effects ⟨true, true, -1⟩ ⟨none, 0, none⟩
